import Mathlib

/-!
Shallow embedding of the record-import pipeline of
`SecureCRT_Sessions/SecureCRT_import_sessions_script.py`.

The embedding mirrors the script:
* `validateFieldDesignations` — header parsing (`ValidateFieldDesignations`),
  including the delimiter prompt (the interactive answer is passed in as
  `promptResponse`) and the `name=value` default annotations;
* `classifyLabel` / `dispatchField` / `processFields` — the per-field loop of
  `Import()` (lines 681-814), with the script's substring-based label dispatch;
* `validateSessionFolderComponent` — `ValidateSessionFolderComponent`,
  bad-character and Windows reserved-name checks;
* `validateProtocolComponent` — `ValidateProtocolComponent` (the RDP gate);
* `postLine` — the tail of the per-line processing (session-name fallback,
  folder default, validations, path resolution, duplicate timestamping, save);
* `processDataLine` / `runLines` / `runImport` — the whole-run driver.

Host-application state (SecureCRT version, platform, the Default session's
protocol, the session store, the current timestamp) is an explicit `Env` /
`Store` value.  Mutable globals (`g_strErrors`, `g_strBogusLinesNotImported`,
counters) are threaded as `RunState`.  Error strings are modelled as an
inductive `ErrMsg` carrying the payload the script formats into the message.
-/

namespace SecureCRTImport

/-- Boolean infix test on character lists. -/
def charsInfixOf (sub : List Char) : List Char → Bool
  | [] => sub.isEmpty
  | c :: rest => sub.isPrefixOf (c :: rest) || charsInfixOf sub rest

/-- Python substring test: `sub in s`, and also `s.find(sub) > -1`. -/
def strContainsB (s sub : String) : Bool := charsInfixOf sub.data s.data

/-- ASCII model of Python `str.lower`. -/
def pyLower (s : String) : String := String.mk (s.data.map Char.toLower)

/-- ASCII model of Python `str.upper`. -/
def pyUpper (s : String) : String := String.mk (s.data.map Char.toUpper)

/-- Python `str.strip()` (with no argument): drop whitespace on both ends. -/
def pyStrip (s : String) : String :=
  String.mk (((s.data.dropWhile Char.isWhitespace).reverse.dropWhile Char.isWhitespace).reverse)

def pyStartsWith (s pre : String) : Bool := pre.data.isPrefixOf s.data

def pyDrop (s : String) (n : Nat) : String := String.mk (s.data.drop n)

def splitSepGo (sep : List Char) : Nat → List Char → List Char → List (List Char)
  | 0, l, acc => [acc.reverse ++ l]
  | _ + 1, [], acc => [acc.reverse]
  | fuel + 1, c :: rest, acc =>
    if sep.isPrefixOf (c :: rest) then
      acc.reverse :: splitSepGo sep fuel ((c :: rest).drop sep.length) []
    else splitSepGo sep fuel rest (c :: acc)

/-- Python `s.split(sep)` for a non-empty separator (the script always has
one by the time a line is split). -/
def pySplit (s sep : String) : List String :=
  if sep.data.isEmpty then [s]
  else (splitSepGo sep.data (s.data.length + 1) s.data []).map String.mk

def replaceGo (pat repl : List Char) : Nat → List Char → List Char
  | 0, l => l
  | _ + 1, [] => []
  | fuel + 1, c :: rest =>
    if pat.isPrefixOf (c :: rest) then
      repl ++ replaceGo pat repl fuel ((c :: rest).drop pat.length)
    else c :: replaceGo pat repl fuel rest

/-- Python `s.replace(pat, repl)`, every occurrence, for a non-empty pattern. -/
def pyReplace (s pat repl : String) : String :=
  if pat.data.isEmpty then s
  else String.mk (replaceGo pat.data repl.data (s.data.length + 1) s.data)

/-- ASCII model of Python `str.isdigit`, used on the (non-empty) port token. -/
def allDigits (s : String) : Bool := s.data.all Char.isDigit

/-- `g_strSupportedFields` from the script. -/
def g_strSupportedFields : String :=
  "description,emulation,folder,hostname,port,protocol,session_name,username,logon_script,domain"

/-- The supported-field vocabulary, as the comma-separated list in the script. -/
def supportedFields : List String := pySplit g_strSupportedFields ","

/-- `g_bOverwriteExistingSessions` — the script ships with overwriting disabled. -/
def g_bOverwriteExistingSessions : Bool := false

/-- Reserved device names: the alternation `(CON|PRN|AUX|NUL|COM[0-9]|LPT[0-9])`
of `g_objReSpecialsFolders` / `g_objReSpecialsSession`. -/
def reservedNames : List String :=
  ["CON", "PRN", "AUX", "NUL"]
    ++ (List.range 10).map (fun i => "COM" ++ toString i)
    ++ (List.range 10).map (fun i => "LPT" ++ toString i)

/-- Characters rejected in folder components (`g_objReFolders`); session
components (`g_objReSession`) additionally reject the path separator. -/
def badCharsFor (isFolder : Bool) : List Char :=
  if isFolder then ['|', ':', '*', '?', '"', '<', '>']
  else ['|', ':', '*', '?', '"', '<', '>', '/']

/-- Error/warning messages accumulated in `g_strErrors`, by kind and payload. -/
inductive ErrMsg
  | insufficientData (lineNo : Nat) (line : String)
  | fieldCountMismatch (lineNo nData nHeader : Nat) (line : String)
  | invalidPort (port : String) (lineNo : Nat) (line : String)
  | unsupportedProtocol (tok : String) (lineNo : Nat) (line : String)
  | invalidProtocol (tok : String) (lineNo : Nat) (line : String)
  | emptyHostname (lineNo : Nat) (line : String)
  | invalidEmulation (tok : String) (lineNo : Nat) (line : String)
  | unsupportedEmulationVersion (lineNo : Nat) (line : String)
  | invalidNameChar (c : Char) (ty comp : String) (lineNo : Nat) (line : String)
  | reservedDeviceName (nm ty comp : String) (lineNo : Nat) (line : String)
  | rdpRequiresV9 (lineNo : Nat) (line : String)
  | rdpRequiresWindows (lineNo : Nat) (line : String)
  deriving DecidableEq

/-- Conditions on which the script pops a message box and `return`s,
aborting the whole run. -/
inductive FatalErr
  | missingDelimiter
  | missingRequiredField
  | unknownField (label : String)
  | logonScriptNotSupportedForRdp
  | emulationNotSupportedForRdp
  deriving DecidableEq

instance {ε α : Type} [DecidableEq ε] [DecidableEq α] : DecidableEq (Except ε α)
  | Except.error x, Except.error y =>
    if h : x = y then Decidable.isTrue (by rw [h])
    else Decidable.isFalse (fun he => h (Except.error.inj he))
  | Except.error _, Except.ok _ => Decidable.isFalse (fun he => Except.noConfusion he)
  | Except.ok _, Except.error _ => Decidable.isFalse (fun he => Except.noConfusion he)
  | Except.ok x, Except.ok y =>
    if h : x = y then Decidable.isTrue (by rw [h])
    else Decidable.isFalse (fun he => h (Except.ok.inj he))

/-- Header-level defaults recorded by `ValidateFieldDesignations`
(`g_strDefaultProtocol`, `g_strDefaultFolder`, `g_strDefaultUsername`). -/
structure Defaults where
  protocol : String
  folder : String
  username : String
  deriving DecidableEq

/-- Host-application environment: SecureCRT major version (`g_nMajorVersion`),
`sys.platform == "win32"`, `hasattr(sys, "getwindowsversion")`, the overwrite
switch, the Default session's protocol, and the current timestamp tag used for
duplicate session names. -/
structure Env where
  majorVersion : Nat
  isWin32 : Bool
  hasWindowsVersion : Bool
  overwriteExisting : Bool
  defaultSessionProtocol : String
  nowTag : String
  deriving DecidableEq

/-- The per-line normalized field values (the `strSessionName`, `strHostName`,
... variables of `Import()`), all initialized to the empty string. -/
structure Rec0 where
  sessionName : String := ""
  hostName : String := ""
  port : String := ""
  protocol : String := ""
  userName : String := ""
  emulation : String := ""
  folder : String := ""
  folderOrig : String := ""
  description : String := ""
  logonScript : String := ""
  domain : String := ""
  deriving DecidableEq

/-- The session store: resolved session path to saved configuration.
Later saves shadow earlier ones (`objConfig.Save(path)` overwrites). -/
abbrev Store := List (String × Rec0)

def storeLookup (st : Store) (p : String) : Option Rec0 := st.lookup p

/-- `SessionExists`. -/
def sessionExists (st : Store) (p : String) : Bool := (storeLookup st p).isSome

/-- `objConfig.Save(path)`. -/
def storeSave (st : Store) (p : String) (r : Rec0) : Store := (p, r) :: st

/-- Process-wide accumulators of the script. -/
structure RunState where
  errors : List ErrMsg
  bogus : List String
  store : Store
  sessionsCreated : List String
  nSessionsCreated : Nat
  deriving DecidableEq

def initRunState (store0 : Store) : RunState :=
  { errors := [], bogus := [], store := store0, sessionsCreated := [], nSessionsCreated := 0 }

/-- Delimiter resolution at the top of `ValidateFieldDesignations`: if the
configured delimiter is absent from the header the script prompts; an empty
answer aborts, answer `NONE` keeps the configured delimiter, any other answer
replaces it. -/
def resolveDelimiter (strFields0 delim0 promptResponse : String) : Option String :=
  if strContainsB strFields0 delim0 then some delim0
  else if promptResponse = "" then none
  else if promptResponse = "NONE" then some delim0
  else some promptResponse

/-- One step of the default-annotation loop in `ValidateFieldDesignations`:
for a header token containing `protocol`/`folder`/`username` together with
`=`, record the default value and replace the token text by the bare field
name in the header string. -/
def applyDefaultTok (acc : String × Defaults) (tok : String) : String × Defaults :=
  let a1 :=
    if strContainsB (pyLower tok) "protocol" && strContainsB (pyLower tok) "=" then
      (pyReplace acc.1 tok "protocol",
       { acc.2 with protocol := pyUpper ((pySplit tok "=").getD 1 "") })
    else acc
  let a2 :=
    if strContainsB (pyLower tok) "folder" && strContainsB (pyLower tok) "=" then
      (pyReplace a1.1 tok "folder",
       { a1.2 with folder := (pySplit tok "=").getD 1 "" })
    else a1
  if strContainsB (pyLower tok) "username" && strContainsB (pyLower tok) "=" then
    (pyReplace a2.1 tok "username",
     { a2.2 with username := (pySplit tok "=").getD 1 "" })
  else a2

/-- `ValidateFieldDesignations`: produce the field array, the (possibly
re-prompted) delimiter, and the recorded defaults, or fail. -/
def validateFieldDesignations (strFields0 delim0 promptResponse defaultSessionProtocol : String) :
    Except FatalErr (List String × String × Defaults) :=
  match resolveDelimiter strFields0 delim0 promptResponse with
  | none => Except.error FatalErr.missingDelimiter
  | some delim =>
    let fields := pySplit strFields0 delim
    if (fields.map pyLower).contains "hostname" then
      let d0 : Defaults :=
        if (fields.map pyLower).contains "protocol" then ⟨"", "", ""⟩
        else if strContainsB (pyLower strFields0) "protocol=" then ⟨"", "", ""⟩
        else ⟨defaultSessionProtocol, "", ""⟩
      let sd := fields.foldl applyDefaultTok (strFields0, d0)
      Except.ok (pySplit sd.1 delim, delim, sd.2)
    else Except.error FatalErr.missingRequiredField

/-- Result of normalizing a protocol token. -/
inductive ProtoResult
  | ok (s : String)
  | unsupported (tok : String)
  | invalid (tok : String)
  deriving DecidableEq

/-- The protocol branch of the field loop (`Import()` lines 698-727). -/
def normalizeProtocol (value defaultProtocol : String) : ProtoResult :=
  let p := pyStrip (pyLower value)
  if p = "ssh2" then ProtoResult.ok "SSH2"
  else if p = "ssh1" then ProtoResult.ok "SSH1"
  else if p = "telnet" then ProtoResult.ok "Telnet"
  else if p = "serial" ∨ p = "tapi" then ProtoResult.unsupported p
  else if p = "rlogin" then ProtoResult.ok "RLogin"
  else if strContainsB p "rdp" then ProtoResult.ok "RDP"
  else if defaultProtocol ≠ "" then ProtoResult.ok defaultProtocol
  else ProtoResult.invalid p

/-- Result of normalizing an emulation token. -/
inductive EmulResult
  | ok (s : String)
  | versionTooOld
  | invalid (tok : String)
  deriving DecidableEq

/-- The emulation branch of the field loop (`Import()` lines 740-776);
`vt320` requires major version at least 8. -/
def normalizeEmulation (value : String) (majorVersion : Nat) : EmulResult :=
  let e := pyStrip (pyLower value)
  if e = "xterm" then EmulResult.ok "Xterm"
  else if e = "vt100" then EmulResult.ok "VT100"
  else if e = "vt102" then EmulResult.ok "VT102"
  else if e = "vt220" then EmulResult.ok "VT220"
  else if e = "vt320" then
    if majorVersion < 8 then EmulResult.versionTooOld else EmulResult.ok "VT320"
  else if e = "ansi" then EmulResult.ok "ANSI"
  else if e = "linux" then EmulResult.ok "Linux"
  else if e = "scoansi" then EmulResult.ok "SCOANSI"
  else if e = "vshell" then EmulResult.ok "VShell"
  else if e = "wyse50" then EmulResult.ok "WYSE50"
  else if e = "wyse60" then EmulResult.ok "WYSE60"
  else EmulResult.invalid e

/-- The ten field kinds the script dispatches on. -/
inductive FieldKind
  | sessionNameF | logonScriptF | portF | protocolF | hostnameF | usernameF
  | emulationF | folderF | descriptionF | domainF
  deriving DecidableEq

/-- The script's label dispatch: `strFieldLabel = field.strip().lower()` and
then an `elif` chain of substring tests, in source order. -/
def classifyLabel (fieldName : String) : Option FieldKind :=
  let l := pyLower (pyStrip fieldName)
  if strContainsB l "session_name" then some FieldKind.sessionNameF
  else if strContainsB l "logon_script" then some FieldKind.logonScriptF
  else if strContainsB l "port" then some FieldKind.portF
  else if strContainsB l "protocol" then some FieldKind.protocolF
  else if strContainsB l "hostname" then some FieldKind.hostnameF
  else if strContainsB l "username" then some FieldKind.usernameF
  else if strContainsB l "emulation" then some FieldKind.emulationF
  else if strContainsB l "folder" then some FieldKind.folderF
  else if strContainsB l "description" then some FieldKind.descriptionF
  else if strContainsB l "domain" then some FieldKind.domainF
  else none

/-- Accumulator of the field loop: the record so far, `bSaveSession`, and the
error list (`g_strErrors`, most recent first). -/
structure FieldAcc where
  record : Rec0
  bSave : Bool
  errors : List ErrMsg
  deriving DecidableEq

/-- One iteration of the field loop of `Import()`.  An unknown field label is
the fatal `Unknown field designation` branch; the error carries the label and
the accumulator at that point. -/
def dispatchField (d : Defaults) (mv lineNo : Nat) (line fieldName value : String)
    (acc : FieldAcc) : Except (String × FieldAcc) FieldAcc :=
  match classifyLabel fieldName with
  | none => Except.error (fieldName, acc)
  | some FieldKind.sessionNameF =>
      Except.ok { acc with record := { acc.record with sessionName := pyStrip value } }
  | some FieldKind.logonScriptF =>
      Except.ok { acc with record := { acc.record with logonScript := pyStrip value } }
  | some FieldKind.portF =>
      let p := pyStrip value
      if p ≠ "" ∧ allDigits p = false then
        Except.ok { acc with
                    record := { acc.record with port := p }
                    bSave := false
                    errors := ErrMsg.invalidPort p lineNo line :: acc.errors }
      else
        Except.ok { acc with record := { acc.record with port := p } }
  | some FieldKind.protocolF =>
      match normalizeProtocol value d.protocol with
      | ProtoResult.ok s =>
          Except.ok { acc with record := { acc.record with protocol := s } }
      | ProtoResult.unsupported p =>
          Except.ok { acc with
                      record := { acc.record with protocol := p }
                      bSave := false
                      errors := ErrMsg.unsupportedProtocol (pyStrip value) lineNo line :: acc.errors }
      | ProtoResult.invalid p =>
          Except.ok { acc with
                      record := { acc.record with protocol := p }
                      bSave := false
                      errors := ErrMsg.invalidProtocol p lineNo line :: acc.errors }
  | some FieldKind.hostnameF =>
      let h := pyStrip value
      if h = "" then
        Except.ok { acc with
                    record := { acc.record with hostName := h }
                    bSave := false
                    errors := ErrMsg.emptyHostname lineNo line :: acc.errors }
      else
        Except.ok { acc with record := { acc.record with hostName := h } }
  | some FieldKind.usernameF =>
      Except.ok { acc with record := { acc.record with userName := pyStrip value } }
  | some FieldKind.emulationF =>
      match normalizeEmulation value mv with
      | EmulResult.ok s =>
          Except.ok { acc with record := { acc.record with emulation := s } }
      | EmulResult.versionTooOld =>
          Except.ok { acc with
                      record := { acc.record with emulation := pyStrip (pyLower value) }
                      bSave := false
                      errors := ErrMsg.unsupportedEmulationVersion lineNo line :: acc.errors }
      | EmulResult.invalid e =>
          Except.ok { acc with
                      record := { acc.record with emulation := e }
                      bSave := false
                      errors := ErrMsg.invalidEmulation e lineNo line :: acc.errors }
  | some FieldKind.folderF =>
      let fo := pyStrip value
      let f := pyLower fo
      if f = "" then
        Except.ok { acc with record := { acc.record with folder := d.folder, folderOrig := d.folder } }
      else
        Except.ok { acc with record := { acc.record with folder := f, folderOrig := fo } }
  | some FieldKind.descriptionF =>
      let cur := pyStrip value
      let newDesc :=
        if acc.record.description = "" then cur
        else pyReplace (acc.record.description ++ "\\r" ++ cur) "\\r" "\r"
      Except.ok { acc with record := { acc.record with description := newDesc } }
  | some FieldKind.domainF =>
      Except.ok { acc with record := { acc.record with domain := pyStrip value } }

/-- The whole field loop over (header label, line value) pairs. -/
def processFields (d : Defaults) (mv lineNo : Nat) (line : String) :
    List (String × String) → FieldAcc → Except (String × FieldAcc) FieldAcc
  | [], acc => Except.ok acc
  | (f, v) :: rest, acc =>
    match dispatchField d mv lineNo line f v acc with
    | Except.error e => Except.error e
    | Except.ok acc1 => processFields d mv lineNo line rest acc1

/-- `ValidateSessionFolderComponent`: first the bad-character scan, then (on a
Windows-like host) the reserved-device-name check — exact match for session
names, standalone `/NAME/` segment for folder paths, case-insensitively. -/
def wrapFolderComponent (comp : String) : String :=
  let c1 := if pyStartsWith comp "/" then comp else "/" ++ comp
  if pyDrop c1 1 = "/" then c1 else c1 ++ "/"

def findReservedFolderSegment (wrapped : String) : Option String :=
  reservedNames.find? (fun nm => strContainsB (pyUpper wrapped) ("/" ++ nm ++ "/"))

def matchReservedSession (comp : String) : Option String :=
  reservedNames.find? (fun nm => pyUpper comp == nm)

def validateSessionFolderComponent (comp ty : String) (hasWindowsVersion : Bool)
    (lineNo : Nat) (line : String) : Option ErrMsg :=
  let t := pyLower ty
  let isFolder := t == "folder"
  match comp.data.find? (fun c => (badCharsFor isFolder).contains c) with
  | some c => some (ErrMsg.invalidNameChar c t comp lineNo line)
  | none =>
    if hasWindowsVersion then
      if isFolder then
        match findReservedFolderSegment (wrapFolderComponent comp) with
        | some nm => some (ErrMsg.reservedDeviceName nm t comp lineNo line)
        | none => none
      else
        match matchReservedSession comp with
        | some nm => some (ErrMsg.reservedDeviceName nm t comp lineNo line)
        | none => none
    else none

/-- `ValidateProtocolComponent`: RDP needs SecureCRT 9+ on Windows. -/
def validateProtocolComponent (proto : String) (majorVersion : Nat) (isWin32 : Bool)
    (lineNo : Nat) (line : String) : Option ErrMsg :=
  if strContainsB (pyLower proto) "rdp" then
    if majorVersion < 9 then some (ErrMsg.rdpRequiresV9 lineNo line)
    else if isWin32 then none
    else some (ErrMsg.rdpRequiresWindows lineNo line)
  else none

/-- Port defaulting performed while saving (`Import()` lines 909-924). -/
def finalizeForSave (r : Rec0) : Rec0 :=
  if pyUpper r.protocol = "SSH2" then
    (if r.port = "" then { r with port := "22" } else r)
  else if pyUpper r.protocol = "SSH1" then
    (if r.port = "" then { r with port := "22" } else r)
  else if pyUpper r.protocol = "TELNET" then
    (if r.port = "" then { r with port := "23" } else r)
  else if strContainsB (pyLower r.protocol) "rdp" then
    (if r.port = "" then { r with port := "3389" } else r)
  else r

/-- Per-line outcome.  `created` carries the normalized record, the resolved
session path, and the path actually saved (timestamped if a duplicate). -/
inductive LineResult
  | rejected
  | created (r : Rec0) (resolvedPath savedPath : String)
  | fatal (e : FatalErr)
  deriving DecidableEq

/-- The fallbacks applied after the field loop (`Import()` lines 816-824):
an empty session name becomes the hostname, an empty folder becomes the
header's default folder. -/
def fallbackRecord (d : Defaults) (r0 : Rec0) : Rec0 :=
  let r1 := if r0.sessionName = "" then { r0 with sessionName := r0.hostName } else r0
  if r1.folderOrig = "" then { r1 with folderOrig := d.folder } else r1

/-- `strUserName = g_strDefaultUsername` when blank (`Import()` lines 842-843). -/
def applyUserDefault (d : Defaults) (r : Rec0) : Rec0 :=
  if pyStrip r.userName = "" then { r with userName := d.username } else r

/-- Path canonicalization (`Import()` lines 833-846): join folder and session
name with `/` and strip leading slashes. -/
def resolvedSessionPath (r : Rec0) : String :=
  let path0 := if pyStrip r.folderOrig = "" then r.sessionName
               else r.folderOrig ++ "/" ++ r.sessionName
  String.mk (path0.data.dropWhile (fun c => c == '/'))

/-- The tail of per-line processing (`Import()` lines 816-985): validation,
path resolution, duplicate-name timestamping, and the save (which first writes
a Default-copy carrying only the protocol, then the full record). -/
def postLine (env : Env) (d : Defaults) (lineNo : Nat) (line : String)
    (acc : FieldAcc) (st0 : RunState) : RunState × LineResult :=
  let r2 := fallbackRecord d acc.record
  let sessErr := validateSessionFolderComponent r2.sessionName "session"
      env.hasWindowsVersion lineNo line
  let foldErr := validateSessionFolderComponent r2.folderOrig "folder"
      env.hasWindowsVersion lineNo line
  let protoErr := validateProtocolComponent r2.protocol env.majorVersion env.isWin32
      lineNo line
  let bSave := acc.bSave && sessErr.isNone && foldErr.isNone && protoErr.isNone
  let errs := protoErr.toList ++ foldErr.toList ++ sessErr.toList ++ acc.errors
  let bog := st0.bogus ++ sessErr.toList.map (fun _ => line)
      ++ foldErr.toList.map (fun _ => line) ++ protoErr.toList.map (fun _ => line)
  let st1 := { st0 with errors := errs, bogus := bog }
  if bSave then
    let r3 := applyUserDefault d r2
    let resolved := resolvedSessionPath r2
    let savedPath :=
      if sessionExists st1.store resolved && !env.overwriteExisting then
        resolved ++ "(import_(" ++ env.nowTag
      else resolved
    let storeA := storeSave st1.store savedPath { protocol := r3.protocol }
    if r3.logonScript ≠ "" ∧ strContainsB (pyLower r3.protocol) "rdp" then
      ({ st1 with store := storeA }, LineResult.fatal FatalErr.logonScriptNotSupportedForRdp)
    else if r3.emulation ≠ "" ∧ strContainsB (pyLower r3.protocol) "rdp" then
      ({ st1 with store := storeA }, LineResult.fatal FatalErr.emulationNotSupportedForRdp)
    else
      let storeB := storeSave storeA savedPath (finalizeForSave r3)
      ({ st1 with
          store := storeB
          sessionsCreated := st1.sessionsCreated ++ [savedPath]
          nSessionsCreated := st1.nSessionsCreated + 1 },
       LineResult.created r3 resolved savedPath)
  else (st1, LineResult.rejected)

/-- One data line of `Import()`: split by the delimiter, reject on a field
count mismatch (too few: error only; too many: error plus the verbatim line in
the not-imported collection), otherwise run the field loop and `postLine`. -/
def processDataLine (schema : List String) (d : Defaults) (env : Env)
    (lineNo : Nat) (line delim : String) (st : RunState) : RunState × LineResult :=
  let vals := pySplit line delim
  if vals.length < schema.length then
    let displayLine := if pyStrip line = "" then "[Empty Line]" else line
    ({ st with errors := ErrMsg.insufficientData lineNo displayLine :: st.errors },
     LineResult.rejected)
  else if vals.length > schema.length then
    ({ st with
        errors := st.errors
          ++ [ErrMsg.fieldCountMismatch lineNo vals.length schema.length line]
        bogus := st.bogus ++ [line] },
     LineResult.rejected)
  else
    match processFields d env.majorVersion lineNo line (schema.zip vals)
        { record := {}, bSave := true, errors := st.errors } with
    | Except.error e => ({ st with errors := e.2.errors },
        LineResult.fatal (FatalErr.unknownField e.1))
    | Except.ok acc => postLine env d lineNo line acc st

/-- The data-line loop: process lines in order, stopping on a fatal error
(the remaining lines are left unprocessed). -/
def runLines (schema : List String) (d : Defaults) (env : Env) (delim : String) :
    Nat → List String → RunState → RunState × Option FatalErr × List LineResult
  | _, [], st => (st, none, [])
  | lineNo, l :: rest, st =>
    match processDataLine schema d env lineNo l delim st with
    | (st1, LineResult.fatal e) => (st1, some e, [LineResult.fatal e])
    | (st1, res) =>
      let t := runLines schema d env delim (lineNo + 1) rest st1
      (t.1, t.2.1, res :: t.2.2)

/-- Result of a whole run of `Import()`. -/
structure RunResult where
  state : RunState
  fatal : Option FatalErr
  outcomes : List LineResult
  deriving DecidableEq

/-- The whole run: first line is the header; a header failure aborts before
any data line is processed. -/
def runImport (env : Env) (delim0 promptResponse : String) (lines : List String)
    (store0 : Store) : RunResult :=
  match lines with
  | [] => { state := initRunState store0, fatal := none, outcomes := [] }
  | header :: rest =>
    match validateFieldDesignations header delim0 promptResponse env.defaultSessionProtocol with
    | Except.error e => { state := initRunState store0, fatal := some e, outcomes := [] }
    | Except.ok sdd =>
      let t := runLines sdd.1 sdd.2.2 env sdd.2.1 2 rest (initRunState store0)
      { state := t.1, fatal := t.2.1, outcomes := t.2.2 }

/-! ### Concrete environments used in witnesses and counterexamples -/

/-- A Windows host running SecureCRT 9 (the script's target platform). -/
def envW : Env :=
  { majorVersion := 9, isWin32 := true, hasWindowsVersion := true,
    overwriteExisting := false, defaultSessionProtocol := "", nowTag := "TS1" }

/-- A non-Windows host running SecureCRT 9. -/
def envLinux : Env :=
  { majorVersion := 9, isWin32 := false, hasWindowsVersion := false,
    overwriteExisting := false, defaultSessionProtocol := "", nowTag := "TS1" }

/-- C3: protocol normalization follows the fixed case-insensitive table;
`serial`/`tapi` are unsupported; any other unmatched token falls back to the
recorded default protocol when present and is otherwise invalid; in
particular `ssh2`, `Ssh2`, `SSH2` all normalize to `SSH2`. -/
theorem c3_protocol_table (t d : String) :
    (normalizeProtocol "ssh2" d = ProtoResult.ok "SSH2" ∧
     normalizeProtocol "Ssh2" d = ProtoResult.ok "SSH2" ∧
     normalizeProtocol "SSH2" d = ProtoResult.ok "SSH2") ∧
    (pyStrip (pyLower t) = "ssh2" → normalizeProtocol t d = ProtoResult.ok "SSH2") ∧
    (pyStrip (pyLower t) = "ssh1" → normalizeProtocol t d = ProtoResult.ok "SSH1") ∧
    (pyStrip (pyLower t) = "telnet" → normalizeProtocol t d = ProtoResult.ok "Telnet") ∧
    (pyStrip (pyLower t) = "rlogin" → normalizeProtocol t d = ProtoResult.ok "RLogin") ∧
    (strContainsB (pyStrip (pyLower t)) "rdp" = true →
       normalizeProtocol t d = ProtoResult.ok "RDP") ∧
    ((pyStrip (pyLower t) = "serial" ∨ pyStrip (pyLower t) = "tapi") →
       normalizeProtocol t d = ProtoResult.unsupported (pyStrip (pyLower t))) ∧
    (pyStrip (pyLower t) ∉ ["ssh2", "ssh1", "telnet", "serial", "tapi", "rlogin"] →
     strContainsB (pyStrip (pyLower t)) "rdp" = false →
       (d ≠ "" → normalizeProtocol t d = ProtoResult.ok d) ∧
       (d = "" → normalizeProtocol t d = ProtoResult.invalid (pyStrip (pyLower t)))) := by
  refine ⟨⟨rfl, rfl, rfl⟩, ?_, ?_, ?_, ?_, ?_, ?_, ?_⟩
  · intro h; simp [normalizeProtocol, h]
  · intro h; simp [normalizeProtocol, h]
  · intro h; simp [normalizeProtocol, h]
  · intro h; simp [normalizeProtocol, h]
  · intro h
    have h1 : pyStrip (pyLower t) ≠ "ssh2" := fun he => by rw [he] at h; exact absurd h (by decide)
    have h2 : pyStrip (pyLower t) ≠ "ssh1" := fun he => by rw [he] at h; exact absurd h (by decide)
    have h3 : pyStrip (pyLower t) ≠ "telnet" := fun he => by rw [he] at h; exact absurd h (by decide)
    have h4 : pyStrip (pyLower t) ≠ "serial" := fun he => by rw [he] at h; exact absurd h (by decide)
    have h5 : pyStrip (pyLower t) ≠ "tapi" := fun he => by rw [he] at h; exact absurd h (by decide)
    have h6 : pyStrip (pyLower t) ≠ "rlogin" := fun he => by rw [he] at h; exact absurd h (by decide)
    simp [normalizeProtocol, h, h1, h2, h3, h4, h5, h6]
  · intro h
    have h1 : pyStrip (pyLower t) ≠ "ssh2" := by rcases h with h | h <;> rw [h] <;> decide
    have h2 : pyStrip (pyLower t) ≠ "ssh1" := by rcases h with h | h <;> rw [h] <;> decide
    have h3 : pyStrip (pyLower t) ≠ "telnet" := by rcases h with h | h <;> rw [h] <;> decide
    simp [normalizeProtocol, h1, h2, h3, h]
  · intro hmem hrdp
    have h1 : pyStrip (pyLower t) ≠ "ssh2" := fun he => hmem (by rw [he]; decide)
    have h2 : pyStrip (pyLower t) ≠ "ssh1" := fun he => hmem (by rw [he]; decide)
    have h3 : pyStrip (pyLower t) ≠ "telnet" := fun he => hmem (by rw [he]; decide)
    have h4 : pyStrip (pyLower t) ≠ "serial" := fun he => hmem (by rw [he]; decide)
    have h5 : pyStrip (pyLower t) ≠ "tapi" := fun he => hmem (by rw [he]; decide)
    have h6 : pyStrip (pyLower t) ≠ "rlogin" := fun he => hmem (by rw [he]; decide)
    constructor
    · intro hd; simp [normalizeProtocol, h1, h2, h3, h4, h5, h6, hrdp, hd]
    · intro hd; simp [normalizeProtocol, h1, h2, h3, h4, h5, h6, hrdp, hd]

/-- C3 witness: concrete instances of the table, including a token that
merely contains `rdp` and an unmatched token falling back to the default. -/
theorem c3_protocol_table_witness :
    normalizeProtocol "xxRdPyy" "" = ProtoResult.ok "RDP" ∧
    normalizeProtocol "Serial" "" = ProtoResult.unsupported "serial" ∧
    normalizeProtocol "bogus" "SSH2" = ProtoResult.ok "SSH2" ∧
    normalizeProtocol "bogus" "" = ProtoResult.invalid "bogus" :=
  ⟨(c3_protocol_table "xxRdPyy" "").2.2.2.2.2.1 (by decide),
   (c3_protocol_table "Serial" "").2.2.2.2.2.2.1 (Or.inl (by decide)),
   ((c3_protocol_table "bogus" "SSH2").2.2.2.2.2.2.2 (by decide) (by decide)).1 (by decide),
   ((c3_protocol_table "bogus" "").2.2.2.2.2.2.2 (by decide) (by decide)).2 rfl⟩

/-- C6: for an emulation token reading `vt320` (case-insensitively), a host
major version below 8 rejects the record with the unsupported-emulation-version
error (`bSaveSession` cleared and the error recorded), while major version 8 or
later normalizes to `VT320`. -/
theorem c6_vt320_version_gate (value : String) (mv : Nat) (d : Defaults)
    (lineNo : Nat) (line f : String) (acc : FieldAcc)
    (hv : pyStrip (pyLower value) = "vt320")
    (hf : classifyLabel f = some FieldKind.emulationF) :
    (mv < 8 →
       normalizeEmulation value mv = EmulResult.versionTooOld ∧
       dispatchField d mv lineNo line f value acc =
         Except.ok { acc with
           record := { acc.record with emulation := pyStrip (pyLower value) }
           bSave := false
           errors := ErrMsg.unsupportedEmulationVersion lineNo line :: acc.errors }) ∧
    (8 ≤ mv →
       normalizeEmulation value mv = EmulResult.ok "VT320" ∧
       dispatchField d mv lineNo line f value acc =
         Except.ok { acc with record := { acc.record with emulation := "VT320" } }) := by
  have h1 : pyStrip (pyLower value) ≠ "xterm" := by rw [hv]; decide
  have h2 : pyStrip (pyLower value) ≠ "vt100" := by rw [hv]; decide
  have h3 : pyStrip (pyLower value) ≠ "vt102" := by rw [hv]; decide
  have h4 : pyStrip (pyLower value) ≠ "vt220" := by rw [hv]; decide
  constructor
  · intro hlt
    have hn : normalizeEmulation value mv = EmulResult.versionTooOld := by
      simp [normalizeEmulation, h1, h2, h3, h4, hv, hlt]
    exact ⟨hn, by simp [dispatchField, hf, hn]⟩
  · intro hge
    have hlt : ¬ mv < 8 := by omega
    have hn : normalizeEmulation value mv = EmulResult.ok "VT320" := by
      simp [normalizeEmulation, h1, h2, h3, h4, hv, hlt]
    exact ⟨hn, by simp [dispatchField, hf, hn]⟩

/-- C6 witness: the token `VT320` at concrete major versions 7 and 9. -/
theorem c6_vt320_version_gate_witness :
    (normalizeEmulation "VT320" 7 = EmulResult.versionTooOld ∧
     dispatchField ⟨"", "", ""⟩ 7 2 "h,VT320" "emulation" "VT320"
         { record := {}, bSave := true, errors := [] } =
       Except.ok { record := { emulation := "vt320" }, bSave := false,
                   errors := [ErrMsg.unsupportedEmulationVersion 2 "h,VT320"] }) ∧
    (normalizeEmulation "VT320" 9 = EmulResult.ok "VT320" ∧
     dispatchField ⟨"", "", ""⟩ 9 2 "h,VT320" "emulation" "VT320"
         { record := {}, bSave := true, errors := [] } =
       Except.ok { record := { emulation := "VT320" }, bSave := true, errors := [] }) :=
  ⟨(c6_vt320_version_gate "VT320" 7 ⟨"", "", ""⟩ 2 "h,VT320" "emulation"
      { record := {}, bSave := true, errors := [] } (by decide) (by decide)).1 (by decide),
   (c6_vt320_version_gate "VT320" 9 ⟨"", "", ""⟩ 2 "h,VT320" "emulation"
      { record := {}, bSave := true, errors := [] } (by decide) (by decide)).2 (by decide)⟩

/-- C5: a header line (in which the delimiter occurs) without a `hostname`
field fails with the missing-required-field error, the run aborts, and no
data line is processed: no outcomes, no sessions, the store untouched. -/
theorem c5_missing_hostname (env : Env) (delim resp header : String)
    (rest : List String) (store0 : Store)
    (hdelim : strContainsB header delim = true)
    (hhn : ((pySplit header delim).map pyLower).contains "hostname" = false) :
    runImport env delim resp (header :: rest) store0 =
      { state := initRunState store0, fatal := some FatalErr.missingRequiredField,
        outcomes := [] } := by
  have hhn2 : ¬ ∃ a ∈ pySplit header delim, pyLower a = "hostname" := by simpa using hhn
  simp [runImport, validateFieldDesignations, resolveDelimiter, hdelim, hhn2]

/-- C5 witness: a concrete header `host,port` with a comma delimiter. -/
theorem c5_missing_hostname_witness :
    runImport envW "," "" ["host,port", "a,b"] [] =
      { state := initRunState [], fatal := some FatalErr.missingRequiredField,
        outcomes := [] } :=
  c5_missing_hostname envW "," "" "host,port" ["a,b"] [] (by decide) (by decide)

/-- C1 (amended): a data line whose field count differs from the header is
rejected and processing continues; on too many fields the verbatim line is
appended to the not-imported collection, but on too few fields only the
insufficient-data error is recorded and the line is NOT appended. -/
theorem c1_count_mismatch (schema : List String) (d : Defaults) (env : Env)
    (lineNo : Nat) (line delim : String) (st : RunState) :
    ((pySplit line delim).length < schema.length →
      processDataLine schema d env lineNo line delim st =
        ({ st with
            errors :=
              ErrMsg.insufficientData lineNo
                (if pyStrip line = "" then "[Empty Line]" else line) :: st.errors },
         LineResult.rejected)) ∧
    (schema.length < (pySplit line delim).length →
      processDataLine schema d env lineNo line delim st =
        ({ st with
            errors := st.errors ++
              [ErrMsg.fieldCountMismatch lineNo (pySplit line delim).length
                schema.length line]
            bogus := st.bogus ++ [line] },
         LineResult.rejected)) := by
  constructor
  · intro h; simp [processDataLine, h]
  · intro h
    have h1 : ¬ (pySplit line delim).length < schema.length := by omega
    simp [processDataLine, h, h1]

/-- C1 witness: one line with too few fields, one with too many; both are
rejected, and only the second reaches the not-imported collection. -/
theorem c1_count_mismatch_witness :
    processDataLine ["hostname", "port"] ⟨"", "", ""⟩ envW 2 "abc" "," (initRunState []) =
      ({ initRunState [] with errors := [ErrMsg.insufficientData 2 "abc"] },
       LineResult.rejected) ∧
    processDataLine ["hostname"] ⟨"", "", ""⟩ envW 2 "a,b" "," (initRunState []) =
      ({ initRunState [] with
          errors := [ErrMsg.fieldCountMismatch 2 2 1 "a,b"]
          bogus := ["a,b"] },
       LineResult.rejected) :=
  ⟨(c1_count_mismatch ["hostname", "port"] ⟨"", "", ""⟩ envW 2 "abc" ","
      (initRunState [])).1 (by decide),
   (c1_count_mismatch ["hostname"] ⟨"", "", ""⟩ envW 2 "a,b" ","
      (initRunState [])).2 (by decide)⟩

/-- C1 counterexample: the claim also asserts the too-few-fields line is
appended verbatim to the rejected-lines collection; in fact the line `abc`
is rejected but the collection stays empty (only the error text records it). -/
theorem c1_count_mismatch_counterexample :
    (processDataLine ["hostname", "port"] ⟨"", "", ""⟩ envW 2 "abc" ","
        (initRunState [])).2 = LineResult.rejected ∧
    (processDataLine ["hostname", "port"] ⟨"", "", ""⟩ envW 2 "abc" ","
        (initRunState [])).1.bogus = [] := by
  constructor
  · decide
  · decide

/-- Any character disallowed for folder components is disallowed for both
component kinds (`g_objReSession` extends `g_objReFolders`). -/
lemma mem_badChars_mono (b : Bool) (c : Char) (hc : c ∈ badCharsFor true) :
    (badCharsFor b).contains c = true := by
  cases b <;> simp [badCharsFor] at hc ⊢ <;> tauto

/-- C8: name validation rejects components holding a disallowed character
(sessions additionally reject the path separator); on a Windows-like host a
session component equal to a reserved device name, or a folder path holding a
reserved name as a standalone segment, is rejected case-insensitively, while
on a non-Windows host the folder component `CON` is accepted. -/
theorem c8_name_validation (comp ty line : String) (lineNo : Nat) (w : Bool) (c : Char) :
    (c ∈ badCharsFor true → c ∈ comp.data →
       (validateSessionFolderComponent comp ty w lineNo line).isSome = true) ∧
    ('/' ∈ comp.data →
       (validateSessionFolderComponent comp "session" w lineNo line).isSome = true) ∧
    (pyUpper comp ∈ reservedNames →
       (validateSessionFolderComponent comp "session" true lineNo line).isSome = true) ∧
    ((∃ nm ∈ reservedNames,
        strContainsB (pyUpper (wrapFolderComponent comp)) ("/" ++ nm ++ "/") = true) →
       (validateSessionFolderComponent comp "folder" true lineNo line).isSome = true) ∧
    ((validateSessionFolderComponent "CON" "folder" true lineNo line).isSome = true) ∧
    ((validateSessionFolderComponent "sub/CON" "folder" true lineNo line).isSome = true) ∧
    (validateSessionFolderComponent "CONX" "folder" true lineNo line = none) ∧
    (validateSessionFolderComponent "CON" "folder" false lineNo line = none) := by
  refine ⟨?_, ?_, ?_, ?_, rfl, rfl, rfl, rfl⟩
  · intro hc hmem
    simp only [validateSessionFolderComponent]
    cases hf : comp.data.find?
        (fun ch => (badCharsFor (pyLower ty == "folder")).contains ch) with
    | some c2 => simp [hf]
    | none =>
      exfalso
      have hp := List.find?_eq_none.mp hf c hmem
      exact hp (mem_badChars_mono _ c hc)
  · intro hmem
    simp only [validateSessionFolderComponent]
    cases hf : comp.data.find?
        (fun ch => (badCharsFor (pyLower "session" == "folder")).contains ch) with
    | some c2 => simp [hf]
    | none =>
      exfalso
      have hp := List.find?_eq_none.mp hf '/' hmem
      exact hp (by decide)
  · intro hres
    simp only [validateSessionFolderComponent]
    cases hf : comp.data.find?
        (fun ch => (badCharsFor (pyLower "session" == "folder")).contains ch) with
    | some c2 => simp [hf]
    | none =>
      have hiso : ¬ (pyLower "session" = "folder") := by decide
      cases hm : matchReservedSession comp with
      | some nm => simp [hf, hm, hiso]
      | none =>
        exfalso
        have hp := List.find?_eq_none.mp hm (pyUpper comp) hres
        simp at hp
  · rintro ⟨nm, hnm, hcontains⟩
    simp only [validateSessionFolderComponent]
    cases hf : comp.data.find?
        (fun ch => (badCharsFor (pyLower "folder" == "folder")).contains ch) with
    | some c2 => simp [hf]
    | none =>
      have hiso : pyLower "folder" = "folder" := by decide
      cases hm : findReservedFolderSegment (wrapFolderComponent comp) with
      | some nm2 => simp [hf, hm, hiso]
      | none =>
        exfalso
        have hp := List.find?_eq_none.mp hm nm hnm
        exact hp hcontains

/-- C8 witness: a session name holding the pipe character, a session name
holding a slash, the reserved session name `con`, and the folder `sub/CON`. -/
theorem c8_name_validation_witness :
    (validateSessionFolderComponent "a|b" "session" true 2 "x").isSome = true ∧
    (validateSessionFolderComponent "a/b" "session" true 2 "x").isSome = true ∧
    (validateSessionFolderComponent "con" "session" true 2 "x").isSome = true ∧
    (validateSessionFolderComponent "sub/CON" "folder" true 2 "x").isSome = true :=
  ⟨(c8_name_validation "a|b" "session" "x" 2 true '|').1 (by decide) (by decide),
   (c8_name_validation "a/b" "session" "x" 2 true '|').2.1 (by decide),
   (c8_name_validation "con" "session" "x" 2 true '|').2.2.1 (by decide),
   (c8_name_validation "sub/CON" "folder" "x" 2 true '|').2.2.2.1
     ⟨"CON", by decide, by decide⟩⟩

/-! ### Invariants of the field loop -/

/-- A label the script cannot dispatch makes `dispatchField` fail with the
label and the accumulator reached so far. -/
lemma dispatchField_none {d : Defaults} {mv lineNo : Nat} {line f v : String}
    {acc : FieldAcc} (hc : classifyLabel f = none) :
    dispatchField d mv lineNo line f v acc = Except.error (f, acc) := by
  simp [dispatchField, hc]

/-- A known label always dispatches successfully. -/
lemma dispatchField_known_ok {d : Defaults} {mv lineNo : Nat} {line f v : String}
    {acc : FieldAcc} {k : FieldKind} (hc : classifyLabel f = some k) :
    ∃ acc1, dispatchField d mv lineNo line f v acc = Except.ok acc1 := by
  cases k <;> simp only [dispatchField, hc] <;> (repeat' split) <;> exact ⟨_, rfl⟩

/-- What one dispatch step does to `bSaveSession`, the hostname, the port and
the session name. -/
lemma dispatchField_ok_spec {d : Defaults} {mv lineNo : Nat} {line f v : String}
    {acc acc1 : FieldAcc} (h : dispatchField d mv lineNo line f v acc = Except.ok acc1) :
    (acc.bSave = false → acc1.bSave = false) ∧
    (classifyLabel f ≠ some FieldKind.hostnameF → acc1.record.hostName = acc.record.hostName) ∧
    (classifyLabel f = some FieldKind.hostnameF →
       acc1.record.hostName = pyStrip v ∧ (acc1.bSave = true → pyStrip v ≠ "")) ∧
    (classifyLabel f ≠ some FieldKind.portF → acc1.record.port = acc.record.port) ∧
    (classifyLabel f = some FieldKind.portF →
       (acc1.bSave = true → acc1.record.port = "" ∨ allDigits acc1.record.port = true)) ∧
    (classifyLabel f ≠ some FieldKind.sessionNameF →
       acc1.record.sessionName = acc.record.sessionName) ∧
    (classifyLabel f = some FieldKind.sessionNameF → acc1.record.sessionName = pyStrip v) := by
  cases hc : classifyLabel f with
  | none => simp [dispatchField, hc] at h
  | some k =>
    cases k <;> simp only [dispatchField, hc] at h <;>
      (repeat' split at h) <;>
      simp only [Except.ok.injEq] at h <;> subst h <;>
      refine ⟨?_, ?_, ?_, ?_, ?_, ?_, ?_⟩ <;> ((try simp_all [hc]); (try tauto))

/-- The loop never resurrects a cleared `bSaveSession`. -/
lemma processFields_bSave_mono {d : Defaults} {mv lineNo : Nat} {line : String} :
    ∀ (pairs : List (String × String)) (acc acc1 : FieldAcc),
      processFields d mv lineNo line pairs acc = Except.ok acc1 →
      acc.bSave = false → acc1.bSave = false := by
  intro pairs
  induction pairs with
  | nil =>
    intro acc acc1 h hb
    simp only [processFields, Except.ok.injEq] at h
    subst h; exact hb
  | cons p rest ih =>
    intro acc acc1 h hb
    obtain ⟨f, v⟩ := p
    simp only [processFields] at h
    cases hd : dispatchField d mv lineNo line f v acc with
    | error e => rw [hd] at h; simp at h
    | ok acc2 =>
      rw [hd] at h
      exact ih acc2 acc1 h ((dispatchField_ok_spec hd).1 hb)

/-- If the final `bSaveSession` is still set and some processed pair was a
hostname field (or the hostname was already non-empty), the hostname is
non-empty. -/
lemma processFields_hostName {d : Defaults} {mv lineNo : Nat} {line : String} :
    ∀ (pairs : List (String × String)) (acc acc1 : FieldAcc),
      processFields d mv lineNo line pairs acc = Except.ok acc1 →
      acc1.bSave = true →
      (acc.record.hostName ≠ "" ∨
        ∃ pr ∈ pairs, classifyLabel pr.1 = some FieldKind.hostnameF) →
      acc1.record.hostName ≠ "" := by
  intro pairs
  induction pairs with
  | nil =>
    intro acc acc1 h hb hside
    simp only [processFields, Except.ok.injEq] at h
    subst h
    rcases hside with hside | ⟨pr, hpr, _⟩
    · exact hside
    · exact absurd hpr (List.not_mem_nil pr)
  | cons p rest ih =>
    intro acc acc1 h hb hside
    obtain ⟨f, v⟩ := p
    simp only [processFields] at h
    cases hd : dispatchField d mv lineNo line f v acc with
    | error e => rw [hd] at h; simp at h
    | ok acc2 =>
      rw [hd] at h
      have hb2 : acc2.bSave = true := by
        by_contra hbc
        have := processFields_bSave_mono rest acc2 acc1 h
          (by simpa [Bool.not_eq_true] using hbc)
        rw [this] at hb; exact Bool.false_ne_true hb
      by_cases hck : classifyLabel f = some FieldKind.hostnameF
      · have hspec := (dispatchField_ok_spec hd).2.2.1 hck
        refine ih acc2 acc1 h hb (Or.inl ?_)
        rw [hspec.1]
        exact hspec.2 hb2
      · have hkeep := (dispatchField_ok_spec hd).2.1 hck
        rcases hside with hside | ⟨pr, hpr, hprc⟩
        · exact ih acc2 acc1 h hb (Or.inl (hkeep ▸ hside))
        · rcases List.mem_cons.mp hpr with hpe | hpm
          · rw [hpe] at hprc; exact absurd hprc hck
          · exact ih acc2 acc1 h hb (Or.inr ⟨pr, hpm, hprc⟩)

/-- If the final `bSaveSession` is still set, the port is empty or all
digits (given it started that way). -/
lemma processFields_port {d : Defaults} {mv lineNo : Nat} {line : String} :
    ∀ (pairs : List (String × String)) (acc acc1 : FieldAcc),
      processFields d mv lineNo line pairs acc = Except.ok acc1 →
      acc1.bSave = true →
      (acc.record.port = "" ∨ allDigits acc.record.port = true) →
      (acc1.record.port = "" ∨ allDigits acc1.record.port = true) := by
  intro pairs
  induction pairs with
  | nil =>
    intro acc acc1 h hb hside
    simp only [processFields, Except.ok.injEq] at h
    subst h; exact hside
  | cons p rest ih =>
    intro acc acc1 h hb hside
    obtain ⟨f, v⟩ := p
    simp only [processFields] at h
    cases hd : dispatchField d mv lineNo line f v acc with
    | error e => rw [hd] at h; simp at h
    | ok acc2 =>
      rw [hd] at h
      have hb2 : acc2.bSave = true := by
        by_contra hbc
        have := processFields_bSave_mono rest acc2 acc1 h
          (by simpa [Bool.not_eq_true] using hbc)
        rw [this] at hb; exact Bool.false_ne_true hb
      by_cases hck : classifyLabel f = some FieldKind.portF
      · exact ih acc2 acc1 h hb ((dispatchField_ok_spec hd).2.2.2.2.1 hck hb2)
      · have hkeep := (dispatchField_ok_spec hd).2.2.2.1 hck
        exact ih acc2 acc1 h hb (hkeep ▸ hside)

/-- If every session-name pair on the line is blank, the session name stays
empty through the loop. -/
lemma processFields_sessionName_empty {d : Defaults} {mv lineNo : Nat} {line : String} :
    ∀ (pairs : List (String × String)) (acc acc1 : FieldAcc),
      processFields d mv lineNo line pairs acc = Except.ok acc1 →
      (∀ pr ∈ pairs, classifyLabel pr.1 = some FieldKind.sessionNameF → pyStrip pr.2 = "") →
      acc.record.sessionName = "" → acc1.record.sessionName = "" := by
  intro pairs
  induction pairs with
  | nil =>
    intro acc acc1 h _ hse
    simp only [processFields, Except.ok.injEq] at h
    subst h; exact hse
  | cons p rest ih =>
    intro acc acc1 h hall hse
    obtain ⟨f, v⟩ := p
    simp only [processFields] at h
    cases hd : dispatchField d mv lineNo line f v acc with
    | error e => rw [hd] at h; simp at h
    | ok acc2 =>
      rw [hd] at h
      have hrest : ∀ pr ∈ rest, classifyLabel pr.1 = some FieldKind.sessionNameF →
          pyStrip pr.2 = "" :=
        fun pr hpr => hall pr (List.mem_cons_of_mem _ hpr)
      by_cases hck : classifyLabel f = some FieldKind.sessionNameF
      · have hset := (dispatchField_ok_spec hd).2.2.2.2.2.2 hck
        have hblank := hall (f, v) (List.mem_cons_self _ _) hck
        exact ih acc2 acc1 h hrest (by rw [hset]; exact hblank)
      · have hkeep := (dispatchField_ok_spec hd).2.2.2.2.2.1 hck
        exact ih acc2 acc1 h hrest (hkeep ▸ hse)

/-- An unknown label among the pairs makes the loop fail with an unknown
label. -/
lemma processFields_unknown {d : Defaults} {mv lineNo : Nat} {line : String} :
    ∀ (pairs : List (String × String)) (acc : FieldAcc),
      (∃ pr ∈ pairs, classifyLabel pr.1 = none) →
      ∃ lab acc2, processFields d mv lineNo line pairs acc = Except.error (lab, acc2) ∧
        classifyLabel lab = none := by
  intro pairs
  induction pairs with
  | nil =>
    intro acc h
    obtain ⟨pr, hpr, _⟩ := h
    exact absurd hpr (List.not_mem_nil pr)
  | cons p rest ih =>
    intro acc h
    obtain ⟨f, v⟩ := p
    cases hck : classifyLabel f with
    | none =>
      refine ⟨f, acc, ?_, hck⟩
      simp only [processFields, dispatchField_none hck]
    | some k =>
      obtain ⟨acc2, hd⟩ := @dispatchField_known_ok d mv lineNo line f v acc k hck
      obtain ⟨pr, hpr, hprc⟩ := h
      rcases List.mem_cons.mp hpr with hpe | hpm
      · rw [hpe] at hprc; simp [hck] at hprc
      · obtain ⟨lab, acc3, hrest, hlab⟩ := ih acc2 ⟨pr, hpm, hprc⟩
        refine ⟨lab, acc3, ?_, hlab⟩
        simp only [processFields, hd, hrest]

/-- One dispatch step computes the record and `bSaveSession` from the label,
value, defaults and version alone — the error list and line number only feed
the error messages. -/
lemma dispatchField_indep (d : Defaults) (mv n1 n2 : Nat) (line f v : String)
    (r : Rec0) (b : Bool) (e1 e2 : List ErrMsg) :
    (∃ a1 a2, dispatchField d mv n1 line f v ⟨r, b, e1⟩ = Except.ok a1 ∧
              dispatchField d mv n2 line f v ⟨r, b, e2⟩ = Except.ok a2 ∧
              a1.record = a2.record ∧ a1.bSave = a2.bSave) ∨
    (∃ a1 a2, dispatchField d mv n1 line f v ⟨r, b, e1⟩ = Except.error (f, a1) ∧
              dispatchField d mv n2 line f v ⟨r, b, e2⟩ = Except.error (f, a2)) := by
  cases hc : classifyLabel f with
  | none => exact Or.inr ⟨_, _, dispatchField_none hc, dispatchField_none hc⟩
  | some k =>
    left
    cases k <;> simp only [dispatchField, hc]
    case sessionNameF => exact ⟨_, _, rfl, rfl, rfl, rfl⟩
    case logonScriptF => exact ⟨_, _, rfl, rfl, rfl, rfl⟩
    case portF =>
      by_cases hcnd : pyStrip v ≠ "" ∧ allDigits (pyStrip v) = false
      · simp only [if_pos hcnd]; exact ⟨_, _, rfl, rfl, rfl, rfl⟩
      · simp only [if_neg hcnd]; exact ⟨_, _, rfl, rfl, rfl, rfl⟩
    case protocolF =>
      cases hn : normalizeProtocol v d.protocol <;> simp only [hn] <;>
        exact ⟨_, _, rfl, rfl, rfl, rfl⟩
    case hostnameF =>
      by_cases hcnd : pyStrip v = ""
      · simp only [if_pos hcnd]; exact ⟨_, _, rfl, rfl, rfl, rfl⟩
      · simp only [if_neg hcnd]; exact ⟨_, _, rfl, rfl, rfl, rfl⟩
    case usernameF => exact ⟨_, _, rfl, rfl, rfl, rfl⟩
    case emulationF =>
      cases hn : normalizeEmulation v mv <;> simp only [hn] <;>
        exact ⟨_, _, rfl, rfl, rfl, rfl⟩
    case folderF =>
      by_cases hcnd : pyLower (pyStrip v) = ""
      · simp only [if_pos hcnd]; exact ⟨_, _, rfl, rfl, rfl, rfl⟩
      · simp only [if_neg hcnd]; exact ⟨_, _, rfl, rfl, rfl, rfl⟩
    case descriptionF =>
      by_cases hcnd : r.description = ""
      · simp only [if_pos hcnd]; exact ⟨_, _, rfl, rfl, rfl, rfl⟩
      · simp only [if_neg hcnd]; exact ⟨_, _, rfl, rfl, rfl, rfl⟩
    case domainF => exact ⟨_, _, rfl, rfl, rfl, rfl⟩

/-- The whole field loop computes its record and `bSaveSession` (and, on
failure, the offending label) independently of the inherited error list and
the line number. -/
lemma processFields_indep (d : Defaults) (mv : Nat) (line : String) :
    ∀ (pairs : List (String × String)) (n1 n2 : Nat) (r : Rec0) (b : Bool)
      (e1 e2 : List ErrMsg),
      (∃ a1 a2, processFields d mv n1 line pairs ⟨r, b, e1⟩ = Except.ok a1 ∧
                processFields d mv n2 line pairs ⟨r, b, e2⟩ = Except.ok a2 ∧
                a1.record = a2.record ∧ a1.bSave = a2.bSave) ∨
      (∃ x1 x2, processFields d mv n1 line pairs ⟨r, b, e1⟩ = Except.error x1 ∧
                processFields d mv n2 line pairs ⟨r, b, e2⟩ = Except.error x2) := by
  intro pairs
  induction pairs with
  | nil =>
    intro n1 n2 r b e1 e2
    exact Or.inl ⟨_, _, rfl, rfl, rfl, rfl⟩
  | cons p rest ih =>
    intro n1 n2 r b e1 e2
    obtain ⟨f, v⟩ := p
    rcases dispatchField_indep d mv n1 n2 line f v r b e1 e2 with
      ⟨a1, a2, hd1, hd2, hrec, hbs⟩ | ⟨a1, a2, hd1, hd2⟩
    · obtain ⟨r1, b1, e1x⟩ := a1
      obtain ⟨r2, b2, e2x⟩ := a2
      simp only [FieldAcc.mk.injEq] at hrec hbs
      subst hrec; subst hbs
      rcases ih n1 n2 r1 b1 e1x e2x with
        ⟨c1, c2, hp1, hp2, hcrec, hcbs⟩ | ⟨x1, x2, hp1, hp2⟩
      · exact Or.inl ⟨c1, c2, by simp only [processFields, hd1, hp1],
          by simp only [processFields, hd2, hp2], hcrec, hcbs⟩
      · exact Or.inr ⟨x1, x2, by simp only [processFields, hd1, hp1],
          by simp only [processFields, hd2, hp2]⟩
    · exact Or.inr ⟨(f, a1), (f, a2), by simp only [processFields, hd1],
        by simp only [processFields, hd2]⟩

/-- What a `created` outcome of `postLine` implies: the loop left
`bSaveSession` set, the record is the looped record after the session-name,
folder and username fallbacks, the protocol gate passed, and the store gained
the record under the (possibly timestamped) saved path. -/
lemma postLine_created_spec {env : Env} {d : Defaults} {lineNo : Nat} {line : String}
    {acc : FieldAcc} {st0 st1 : RunState} {r : Rec0} {res q : String}
    (h : postLine env d lineNo line acc st0 = (st1, LineResult.created r res q)) :
    acc.bSave = true ∧
    r = applyUserDefault d (fallbackRecord d acc.record) ∧
    res = resolvedSessionPath (fallbackRecord d acc.record) ∧
    validateProtocolComponent (fallbackRecord d acc.record).protocol
      env.majorVersion env.isWin32 lineNo line = none ∧
    q = (if sessionExists st0.store res && !env.overwriteExisting then
           res ++ "(import_(" ++ env.nowTag else res) ∧
    st1.store = storeSave (storeSave st0.store q { protocol := r.protocol })
      q (finalizeForSave r) := by
  simp only [postLine] at h
  split at h
  case isFalse => simp at h
  case isTrue hb =>
    rw [Bool.and_eq_true, Bool.and_eq_true, Bool.and_eq_true] at hb
    obtain ⟨⟨⟨hbacc, hsess⟩, hfold⟩, hproto⟩ := hb
    split at h
    · simp at h
    · split at h
      · simp at h
      · injection h with h1 h2
        injection h2 with hr hres hq
        subst hr; subst hres; subst hq; subst h1
        exact ⟨hbacc, rfl, rfl, Option.isNone_iff_eq_none.mp hproto, rfl, rfl⟩

/-- What a `created` outcome of `processDataLine` implies: the field counts
matched, the field loop succeeded, and `postLine` produced the outcome. -/
lemma processDataLine_created_spec {schema : List String} {d : Defaults} {env : Env}
    {lineNo : Nat} {line delim : String} {st st1 : RunState} {r : Rec0} {res q : String}
    (h : processDataLine schema d env lineNo line delim st = (st1, LineResult.created r res q)) :
    ∃ acc, processFields d env.majorVersion lineNo line
        (schema.zip (pySplit line delim)) { record := {}, bSave := true, errors := st.errors }
        = Except.ok acc ∧
      (pySplit line delim).length = schema.length ∧
      postLine env d lineNo line acc st = (st1, LineResult.created r res q) := by
  simp only [processDataLine] at h
  split at h
  case isTrue => simp at h
  case isFalse hlt =>
    split at h
    case isTrue => simp at h
    case isFalse hgt =>
      cases hpf : processFields d env.majorVersion lineNo line
          (schema.zip (pySplit line delim))
          { record := {}, bSave := true, errors := st.errors } with
      | error e => rw [hpf] at h; simp at h
      | ok acc =>
        rw [hpf] at h
        exact ⟨acc, rfl, by omega, h⟩

/-- The post-loop fallbacks leave hostname, port and protocol untouched and
only replace an empty session name by the hostname. -/
lemma fallbackRecord_fields (d : Defaults) (r0 : Rec0) :
    (fallbackRecord d r0).hostName = r0.hostName ∧
    (fallbackRecord d r0).port = r0.port ∧
    (fallbackRecord d r0).protocol = r0.protocol ∧
    (fallbackRecord d r0).sessionName =
      (if r0.sessionName = "" then r0.hostName else r0.sessionName) := by
  simp only [fallbackRecord]
  repeat' split
  all_goals simp_all

/-- The username default leaves the other fields untouched. -/
lemma applyUserDefault_fields (d : Defaults) (r : Rec0) :
    (applyUserDefault d r).hostName = r.hostName ∧
    (applyUserDefault d r).port = r.port ∧
    (applyUserDefault d r).protocol = r.protocol ∧
    (applyUserDefault d r).sessionName = r.sessionName := by
  simp only [applyUserDefault]
  split <;> simp

/-- An element of the left list of a zip is paired with some element of the
right list when the right list is long enough. -/
lemma exists_zip_right {α β : Type} :
    ∀ (l1 : List α) (l2 : List β) (a : α), a ∈ l1 → l1.length ≤ l2.length →
      ∃ b, (a, b) ∈ l1.zip l2 := by
  intro l1
  induction l1 with
  | nil => intro l2 a ha _; exact absurd ha (List.not_mem_nil a)
  | cons x xs ih =>
    intro l2 a ha hl
    cases l2 with
    | nil => simp at hl
    | cons y ys =>
      rcases List.mem_cons.mp ha with h | h
      · exact ⟨y, by simp [h]⟩
      · obtain ⟨b, hb⟩ := ih ys a h (by simpa using hl)
        exact ⟨b, List.mem_cons_of_mem _ hb⟩

/-- C2 (amended): every record created from a line under a schema that has a
hostname field has a non-empty hostname, a non-empty session name (equal to
the hostname whenever every session-name cell of the line is blank or the
field is absent), and a port that, when non-empty, is a digits-only token
(the script accepts `0`, so the port need not be positive). -/
theorem c2_record_invariants (schema : List String) (d : Defaults) (env : Env)
    (lineNo : Nat) (line delim : String) (st st1 : RunState) (r : Rec0) (res q : String)
    (hhost : ∃ tok ∈ schema, classifyLabel tok = some FieldKind.hostnameF)
    (h : processDataLine schema d env lineNo line delim st = (st1, LineResult.created r res q)) :
    r.hostName ≠ "" ∧ r.sessionName ≠ "" ∧
    (r.port ≠ "" → allDigits r.port = true) ∧
    ((∀ pr ∈ schema.zip (pySplit line delim),
        classifyLabel pr.1 = some FieldKind.sessionNameF → pyStrip pr.2 = "") →
      r.sessionName = r.hostName) := by
  obtain ⟨acc, hpf, hlen, hpost⟩ := processDataLine_created_spec h
  obtain ⟨hbacc, hr, -, -, -, -⟩ := postLine_created_spec hpost
  obtain ⟨tok, htok, hck⟩ := hhost
  obtain ⟨v, hv⟩ := exists_zip_right schema (pySplit line delim) tok htok (by omega)
  have hhn : acc.record.hostName ≠ "" :=
    processFields_hostName _ _ _ hpf hbacc (Or.inr ⟨(tok, v), hv, hck⟩)
  have hport : acc.record.port = "" ∨ allDigits acc.record.port = true :=
    processFields_port _ _ _ hpf hbacc (Or.inl rfl)
  obtain ⟨hfh, hfp, hfproto, hfs⟩ := fallbackRecord_fields d acc.record
  obtain ⟨huh, hup, huproto, hus⟩ := applyUserDefault_fields d (fallbackRecord d acc.record)
  subst hr
  refine ⟨?_, ?_, ?_, ?_⟩
  · rw [huh, hfh]; exact hhn
  · rw [hus, hfs]
    split
    · exact hhn
    · assumption
  · rw [hup, hfp]
    intro hne
    rcases hport with hp | hp
    · exact absurd hp hne
    · exact hp
  · intro hall
    have hse : acc.record.sessionName = "" :=
      processFields_sessionName_empty _ _ _ hpf hall rfl
    rw [hus, hfs, hse, huh, hfh]
    simp

/-- C2 witness: a created record from header fields `hostname, port` and the
line `h,22`. -/
theorem c2_record_invariants_witness :
    ({ sessionName := "h", hostName := "h", port := "22" } : Rec0).hostName ≠ "" ∧
    ({ sessionName := "h", hostName := "h", port := "22" } : Rec0).sessionName ≠ "" ∧
    (({ sessionName := "h", hostName := "h", port := "22" } : Rec0).port ≠ "" →
      allDigits ({ sessionName := "h", hostName := "h", port := "22" } : Rec0).port = true) ∧
    ((∀ pr ∈ (["hostname", "port"].zip (pySplit "h,22" ",")),
        classifyLabel pr.1 = some FieldKind.sessionNameF → pyStrip pr.2 = "") →
      ({ sessionName := "h", hostName := "h", port := "22" } : Rec0).sessionName =
        ({ sessionName := "h", hostName := "h", port := "22" } : Rec0).hostName) :=
  c2_record_invariants ["hostname", "port"] ⟨"", "", ""⟩ envW 2 "h,22" ","
    (initRunState [])
    ((processDataLine ["hostname", "port"] ⟨"", "", ""⟩ envW 2 "h,22" ","
      (initRunState [])).1)
    { sessionName := "h", hostName := "h", port := "22" } "h" "h"
    ⟨"hostname", by decide, by decide⟩ (by decide)

/-- Numeric value of a digits-only token, the Python `int(strPort)` applied
at save time. -/
def pyInt (s : String) : Nat := s.data.foldl (fun n c => 10 * n + (c.toNat - 48)) 0

/-- C2 counterexample: the claim asserts a non-empty port is a positive
integer, but the script's `isdigit` check accepts the port `0`: the line
`h,0` is imported with port `0`, which is not positive. -/
theorem c2_record_invariants_counterexample :
    (processDataLine ["hostname", "port"] ⟨"", "", ""⟩ envW 2 "h,0" ","
        (initRunState [])).2 =
      LineResult.created { sessionName := "h", hostName := "h", port := "0" } "h" "h" ∧
    ({ sessionName := "h", hostName := "h", port := "0" } : Rec0).port ≠ "" ∧
    ¬ (0 < pyInt ({ sessionName := "h", hostName := "h", port := "0" } : Rec0).port) := by
  refine ⟨by decide, by decide, ?_⟩
  decide

/-- C7: the RDP gate — a protocol token containing `rdp` passes protocol
validation exactly when the host application is version 9 or newer on a
Windows platform; in any other environment no record whose protocol contains
`rdp` is ever created, whatever the other fields hold. -/
theorem c7_rdp_gate (proto line : String) (lineNo major : Nat) (win : Bool)
    (schema : List String) (d : Defaults) (env : Env) (delim : String) :
    (strContainsB (pyLower proto) "rdp" = true →
      (validateProtocolComponent proto major win lineNo line = none ↔
        (9 ≤ major ∧ win = true))) ∧
    (¬ (9 ≤ env.majorVersion ∧ env.isWin32 = true) →
      ∀ st st1 r res q,
        processDataLine schema d env lineNo line delim st = (st1, LineResult.created r res q) →
        strContainsB (pyLower r.protocol) "rdp" = false) := by
  constructor
  · intro hrdp
    constructor
    · intro h
      by_cases h9 : major < 9
      · simp [validateProtocolComponent, hrdp, h9] at h
      · by_cases hw : win = true
        · exact ⟨by omega, hw⟩
        · simp [validateProtocolComponent, hrdp, h9, hw] at h
    · rintro ⟨h9, hw⟩
      have h9n : ¬ major < 9 := by omega
      simp [validateProtocolComponent, hrdp, h9n, hw]
  · intro henv st st1 r res q h
    obtain ⟨acc, hpf, hlen, hpost⟩ := processDataLine_created_spec h
    obtain ⟨-, hr, -, hproto, -, -⟩ := postLine_created_spec hpost
    by_cases hx : strContainsB (pyLower r.protocol) "rdp" = true
    case neg => exact (Bool.not_eq_true _).mp hx
    exfalso
    have hpr : r.protocol = (fallbackRecord d acc.record).protocol := by
      rw [hr]; exact (applyUserDefault_fields d _).2.2.1
    rw [hpr] at hx
    by_cases h9 : env.majorVersion < 9
    · simp [validateProtocolComponent, hx, h9] at hproto
    · by_cases hw : env.isWin32 = true
      · exact henv ⟨by omega, hw⟩
      · simp [validateProtocolComponent, hx, h9, hw] at hproto

/-- C7 witness: on a non-Windows host a created record never carries an
`rdp` protocol — instantiated with a plain hostname line — and the gate
itself evaluated at version 8 on Windows. -/
theorem c7_rdp_gate_witness :
    ((validateProtocolComponent "rdp" 8 true 2 "x" = none ↔ (9 ≤ 8 ∧ true = true))) ∧
    strContainsB
      (pyLower ({ sessionName := "h", hostName := "h" } : Rec0).protocol) "rdp" = false :=
  ⟨(c7_rdp_gate "rdp" "x" 2 8 true [] ⟨"", "", ""⟩ envLinux ",").1 (by decide),
   (c7_rdp_gate "h" "h" 2 9 true ["hostname"] ⟨"", "", ""⟩ envLinux ",").2
     (by intro hcon; exact absurd hcon.2 (by decide))
     (initRunState [])
     ((processDataLine ["hostname"] ⟨"", "", ""⟩ envLinux 2 "h" "," (initRunState [])).1)
     { sessionName := "h", hostName := "h" } "h" "h" (by decide)⟩

/-- C9: normalization is a pure function of the line, the schema and the
recorded defaults — two `created` outcomes of the same line under the same
schema, defaults and host environment carry identical records and resolved
paths, whatever the inherited run state and line numbers were. -/
theorem c9_normalization_pure (schema : List String) (d : Defaults) (env : Env)
    (n1 n2 : Nat) (line delim : String) (st1 st2 st1x st2x : RunState)
    (r1 r2 : Rec0) (res1 q1 res2 q2 : String)
    (h1 : processDataLine schema d env n1 line delim st1 = (st1x, LineResult.created r1 res1 q1))
    (h2 : processDataLine schema d env n2 line delim st2 = (st2x, LineResult.created r2 res2 q2)) :
    r1 = r2 ∧ res1 = res2 := by
  obtain ⟨a1, hpf1, -, hpost1⟩ := processDataLine_created_spec h1
  obtain ⟨a2, hpf2, -, hpost2⟩ := processDataLine_created_spec h2
  obtain ⟨-, hr1, hres1, -, -, -⟩ := postLine_created_spec hpost1
  obtain ⟨-, hr2, hres2, -, -, -⟩ := postLine_created_spec hpost2
  rcases processFields_indep d env.majorVersion line (schema.zip (pySplit line delim))
      n1 n2 {} true st1.errors st2.errors with
    ⟨b1, b2, hq1, hq2, hrec, -⟩ | ⟨x1, x2, hq1, hq2⟩
  · rw [hpf1] at hq1
    rw [hpf2] at hq2
    injection hq1 with hq1
    injection hq2 with hq2
    subst hq1; subst hq2
    constructor
    · rw [hr1, hr2, hrec]
    · rw [hres1, hres2, hrec]
  · rw [hpf1] at hq1
    exact absurd hq1 (by simp)

/-- C9 witness: the same line processed from two different run states (an
empty store and a store already holding an unrelated session) yields the
same record and resolved path. -/
theorem c9_normalization_pure_witness :
    ({ sessionName := "h", hostName := "h" } : Rec0) =
      ({ sessionName := "h", hostName := "h" } : Rec0) ∧ "h" = "h" :=
  c9_normalization_pure ["hostname"] ⟨"", "", ""⟩ envW 2 3 "h" ","
    (initRunState []) (initRunState [("x", {})])
    ((processDataLine ["hostname"] ⟨"", "", ""⟩ envW 2 "h" "," (initRunState [])).1)
    ((processDataLine ["hostname"] ⟨"", "", ""⟩ envW 3 "h" "," (initRunState [("x", {})])).1)
    { sessionName := "h", hostName := "h" } { sessionName := "h", hostName := "h" }
    "h" "h" "h" "h" (by decide) (by decide)

/-- C10: with overwriting disabled, a record whose resolved path already
exists in the store is saved under the resolved path with the timestamp tag
appended — a genuinely different path — while the pre-existing entry at the
resolved path is left unchanged. -/
theorem c10_duplicate_timestamp (schema : List String) (d : Defaults) (env : Env)
    (lineNo : Nat) (line delim : String) (st st1 : RunState) (r oldR : Rec0)
    (res q : String)
    (how : env.overwriteExisting = false)
    (h : processDataLine schema d env lineNo line delim st = (st1, LineResult.created r res q))
    (hex : storeLookup st.store res = some oldR) :
    q = res ++ "(import_(" ++ env.nowTag ∧ q ≠ res ∧
    storeLookup st1.store res = some oldR ∧
    storeLookup st1.store q = some (finalizeForSave r) := by
  obtain ⟨acc, hpf, hlen, hpost⟩ := processDataLine_created_spec h
  obtain ⟨-, -, -, -, hq, hstore⟩ := postLine_created_spec hpost
  have hexists : sessionExists st.store res = true := by
    simp [sessionExists, hex]
  have hq2 : q = res ++ "(import_(" ++ env.nowTag := by
    rw [hq, how, hexists]; simp
  have hne : q ≠ res := by
    rw [hq2]
    intro hcon
    have hlen2 := congrArg String.length hcon
    rw [String.length_append, String.length_append] at hlen2
    have h9 : String.length "(import_(" = 9 := by decide
    omega
  have hne2 : (res == q) = false := beq_eq_false_iff_ne.mpr (Ne.symm hne)
  refine ⟨hq2, hne, ?_, ?_⟩
  · rw [hstore]
    simp only [storeSave, storeLookup, List.lookup, hne2]
    simpa [storeLookup] using hex
  · rw [hstore]
    simp [storeSave, storeLookup, List.lookup]

/-- C10 witness: importing `h` while a session `h` already exists saves to
`h(import_(TS1` and leaves the original entry intact. -/
theorem c10_duplicate_timestamp_witness :
    ("h(import_(TS1" : String) = "h" ++ "(import_(" ++ envW.nowTag ∧
    ("h(import_(TS1" : String) ≠ "h" ∧
    storeLookup (processDataLine ["hostname"] ⟨"", "", ""⟩ envW 2 "h" ","
        (initRunState [("h", { hostName := "old" })])).1.store "h" =
      some { hostName := "old" } ∧
    storeLookup (processDataLine ["hostname"] ⟨"", "", ""⟩ envW 2 "h" ","
        (initRunState [("h", { hostName := "old" })])).1.store "h(import_(TS1" =
      some (finalizeForSave { sessionName := "h", hostName := "h" }) :=
  c10_duplicate_timestamp ["hostname"] ⟨"", "", ""⟩ envW 2 "h" ","
    (initRunState [("h", { hostName := "old" })])
    ((processDataLine ["hostname"] ⟨"", "", ""⟩ envW 2 "h" ","
      (initRunState [("h", { hostName := "old" })])).1)
    { sessionName := "h", hostName := "h" } { hostName := "old" }
    "h" "h(import_(TS1" rfl (by decide) (by decide)

/-- C4 (amended): a header token that contains none of the supported field
names as a substring aborts the whole run as an unknown-field error — but
only once a data line with the matching field count is processed; the
remaining lines are then left unprocessed. -/
theorem c4_unknown_field (schema : List String) (d : Defaults) (env : Env)
    (lineNo : Nat) (line delim : String) (st : RunState) (lab : String)
    (rest : List String)
    (hmem : lab ∈ schema) (hunk : classifyLabel lab = none)
    (hlen : (pySplit line delim).length = schema.length) :
    ∃ st1 lab1, classifyLabel lab1 = none ∧
      processDataLine schema d env lineNo line delim st =
        (st1, LineResult.fatal (FatalErr.unknownField lab1)) ∧
      runLines schema d env delim lineNo (line :: rest) st =
        (st1, some (FatalErr.unknownField lab1),
         [LineResult.fatal (FatalErr.unknownField lab1)]) := by
  obtain ⟨v, hv⟩ := exists_zip_right schema (pySplit line delim) lab hmem (by omega)
  obtain ⟨lab1, acc2, hpfe, hlab1⟩ := @processFields_unknown d env.majorVersion lineNo line
      (schema.zip (pySplit line delim))
      { record := {}, bSave := true, errors := st.errors }
      ⟨(lab, v), hv, hunk⟩
  have hpl : processDataLine schema d env lineNo line delim st =
      ({ st with errors := acc2.errors }, LineResult.fatal (FatalErr.unknownField lab1)) := by
    simp only [processDataLine, hlen, lt_self_iff_false, if_false, hpfe]
  refine ⟨{ st with errors := acc2.errors }, lab1, hlab1, hpl, ?_⟩
  simp only [runLines, hpl]

/-- C4 witness: header fields `hostname, zzz` with a matching two-field data
line abort the run at that line. -/
theorem c4_unknown_field_witness :
    ∃ st1 lab1, classifyLabel lab1 = none ∧
      processDataLine ["hostname", "zzz"] ⟨"", "", ""⟩ envW 2 "a,b" ","
          (initRunState []) =
        (st1, LineResult.fatal (FatalErr.unknownField lab1)) ∧
      runLines ["hostname", "zzz"] ⟨"", "", ""⟩ envW "," 2 ["a,b", "c,d"]
          (initRunState []) =
        (st1, some (FatalErr.unknownField lab1),
         [LineResult.fatal (FatalErr.unknownField lab1)]) :=
  c4_unknown_field ["hostname", "zzz"] ⟨"", "", ""⟩ envW 2 "a,b" ","
    (initRunState []) "zzz" ["c,d"] (by decide) (by decide) (by decide)

/-- C4 counterexample: the claim asserts any header token outside the
supported set is fatal, but the script matches labels by substring: the
header token `hostnameZ` is not a supported field name, yet the run
completes without a fatal error and even creates a session (the token is
treated as a hostname field). -/
theorem c4_unknown_field_counterexample :
    supportedFields.contains "hostnamez" = false ∧
    (∀ fld ∈ supportedFields, fld ≠ pyLower "hostnameZ") ∧
    (runImport envW "," "" ["hostname,hostnameZ", "h1,h2"] []).fatal = none ∧
    (runImport envW "," "" ["hostname,hostnameZ", "h1,h2"] []).state.nSessionsCreated = 1 := by
  refine ⟨by decide, by decide, by decide, by decide⟩

end SecureCRTImport
